import Mathlib

/-!
Shallow embedding of `wasr_t/train.py` (WaSR-T training orchestration):
the argument record and `parse_args`, the `LitModel` Lightning wrapper with
its `forward`, `training_step`, `validation_step`, `configure_optimizers`
and `on_save_checkpoint` methods, and the polynomial learning-rate decay
`lr_fn`. Tensors, the wrapped network, the loss functions and the bilinear
resize live outside this file in the source as well; they are abstracted as
type parameters and function arguments. Python floats are modelled as exact
rationals (and as reals where a real power is taken).
-/

namespace WasrT

/-- Source `SL_LAMBDA_DEFAULTS` (train.py lines 18-21): default separation-loss
lambda per separation-loss method. -/
def SL_LAMBDA_DEFAULTS : List (String × ℚ) := [("wasr", 1/100), ("none", 1)]

/-- The argument record built by `add_argparse_args` (train.py lines 26-51).
`separation_loss_lambda` and `separation_loss_clipping` default to `None`,
hence are optional. -/
structure Args where
  learning_rate : ℚ
  momentum : ℚ
  epochs : ℕ
  lr_decay_pow : ℚ
  weight_decay : ℚ
  focal_loss_scale : String
  separation_loss : String
  separation_loss_lambda : Option ℚ
  separation_loss_clipping : Option ℚ
  separation_loss_sky : Bool
deriving Repr, DecidableEq

/-- Source `LitModel.parse_args` (train.py lines 53-62): asserts that the
separation-loss method is a key of `SL_LAMBDA_DEFAULTS`, then, when the
separation-loss lambda is `None`, fills in the method's default. The result
is the final state of the (mutated in place) `args` together with the raised
assertion error, if any; the `assert` precedes every mutation. -/
def parse_args (args : Args) : Args × Option String :=
  if (SL_LAMBDA_DEFAULTS.lookup args.separation_loss).isSome then
    (match args.separation_loss_lambda with
      | none =>
        { args with
          separation_loss_lambda := SL_LAMBDA_DEFAULTS.lookup args.separation_loss }
      | some _ => args,
     none)
  else
    (args, some "AssertionError")

/-- The output dictionary of the wrapped segmentation network: the main
segmentation output `['out']` and the auxiliary features `['aux']`. -/
structure ModelOutput (T : Type) where
  out : T
  aux : T
deriving Repr, DecidableEq

/-- The label dictionary of a batch: its `['segmentation']` entry. -/
structure Labels (T : Type) where
  segmentation : T
deriving Repr, DecidableEq

/-- The wrapped torch module, as the file uses it: it can be called on a
tensor, it has named parameters, and it has a state dict (of abstract
value type `V`). -/
structure NNModel (T P V : Type) where
  run : T → ModelOutput T
  named_parameters : List (String × P)
  state_dict : V

/-- A validation metric object (`PixelAccuracy` / `ClassIoU` live in the
external `metrics` module): the constructor arguments, and the sequence of
`(preds, labels)` pairs the metric has been updated with. `cls` is the class
index of a `ClassIoU`, `none` for `PixelAccuracy`. -/
structure Metric where
  cls : Option ℕ
  num_classes : ℕ
  updates : List (List ℕ × List ℕ)
deriving Repr, DecidableEq

/-- One metric update call, e.g. `self.val_accuracy(preds, labels_hard)`:
records the pair it was fed. -/
def Metric.call (m : Metric) (preds labels : List ℕ) : Metric :=
  { m with updates := m.updates ++ [(preds, labels)] }

/-- The `LitModel` state (train.py lines 64-84): the wrapped model, the
hyper-parameters copied from `args`, and the four validation metrics. -/
structure LitModel (T P V : Type) where
  model : NNModel T P V
  num_classes : ℕ
  epochs : ℕ
  learning_rate : ℚ
  momentum : ℚ
  weight_decay : ℚ
  lr_decay_pow : ℚ
  focal_loss_scale : String
  separation_loss : String
  separation_loss_clipping : Option ℚ
  separation_loss_lambda : Option ℚ
  separation_loss_sky : Bool
  val_accuracy : Metric
  val_iou_0 : Metric
  val_iou_1 : Metric
  val_iou_2 : Metric

/-- Source `LitModel.__init__` (train.py lines 64-84): copies the hyper-parameters
from `args` and creates the four validation metrics
(`PixelAccuracy(num_classes)`, `ClassIoU(0|1|2, num_classes)`). -/
def LitModel.init {T P V : Type} (model : NNModel T P V) (num_classes : ℕ)
    (args : Args) : LitModel T P V :=
  { model := model
    num_classes := num_classes
    epochs := args.epochs
    learning_rate := args.learning_rate
    momentum := args.momentum
    weight_decay := args.weight_decay
    lr_decay_pow := args.lr_decay_pow
    focal_loss_scale := args.focal_loss_scale
    separation_loss := args.separation_loss
    separation_loss_clipping := args.separation_loss_clipping
    separation_loss_lambda := args.separation_loss_lambda
    separation_loss_sky := args.separation_loss_sky
    val_accuracy := { cls := none, num_classes := num_classes, updates := [] }
    val_iou_0 := { cls := some 0, num_classes := num_classes, updates := [] }
    val_iou_1 := { cls := some 1, num_classes := num_classes, updates := [] }
    val_iou_2 := { cls := some 2, num_classes := num_classes, updates := [] } }

/-- Source `LitModel.forward` (train.py lines 86-88): call the wrapped model and
return the `'out'` entry of its output dictionary. -/
def LitModel.forward {T P V : Type} (self : LitModel T P V) (x : T) : T :=
  let output := self.model.run x
  output.out

/-- Source `LitModel.training_step` (train.py lines 90-111), parameterised by the
external loss functions `focal_loss(out, target, target_scale)` and
`water_obstacle_separation_loss(features, target, clipping, include_sky)`.
Returns the loss together with the logged scalars, or `none` for the
`TypeError` Python raises when `separation_loss_lambda` is still `None`
(multiplying `None` by a tensor). -/
def LitModel.training_step {T P V : Type}
    (focal_loss : T → T → String → ℚ)
    (water_obstacle_separation_loss : T → T → Option ℚ → Bool → ℚ)
    (self : LitModel T P V) (features : T) (labels : Labels T) :
    Option (ℚ × List (String × ℚ)) :=
  let out := self.model.run features
  let fl := focal_loss out.out labels.segmentation self.focal_loss_scale
  let separation_loss : ℚ :=
    if self.separation_loss = "wasr" then
      water_obstacle_separation_loss out.aux labels.segmentation
        self.separation_loss_clipping self.separation_loss_sky
    else 0
  match self.separation_loss_lambda with
  | none => none
  | some lam =>
    let loss := fl + lam * separation_loss
    some (loss,
      [("train/loss", loss), ("train/focal_loss", fl),
       ("train/separation_loss", separation_loss)])

/-- An image tensor of the validation path: the spatial size (`size(2)` and
`size(3)` of the torch tensor) and the per-pixel channel value lists, with
the batch and spatial dimensions flattened into one pixel list. -/
structure Tensor4 where
  height : ℕ
  width : ℕ
  pixels : List (List ℚ)
deriving Repr, DecidableEq

/-- Embeds `torch.argmax` along the channel dimension for one pixel: the index of
the first maximal channel value (0 for an empty list). -/
def argmaxIdx : List ℚ → ℕ
  | [] => 0
  | x :: xs =>
    match xs.get? (argmaxIdx xs) with
    | some y => if x < y then argmaxIdx xs + 1 else 0
    | none => 0

/-- The hard labels of `validation_step` (train.py lines 132-135): per pixel,
`argmax * ~ignore + 4 * ignore` with the ignore mask `channel sum < 0.9` and
the booleans multiplied as 0/1. -/
def labels_hard_list (seg : Tensor4) : List ℕ :=
  let labels_hard := seg.pixels.map argmaxIdx
  let ignore_mask := seg.pixels.map (fun c => decide (c.sum < 9/10))
  List.zipWith (fun h i => h * (!i).toNat + 4 * i.toNat) labels_hard ignore_mask

/-- What one `validation_step` call produces: the updated `LitModel` state
(its metrics were fed), the logged scalars, the names of the logged metric
objects, and the returned loss and predictions. -/
structure ValStepOut (P V : Type) where
  self : LitModel Tensor4 P V
  scalar_logs : List (String × ℚ)
  metric_logs : List String
  loss : ℚ
  preds : List ℕ

/-- Source `LitModel.validation_step` (train.py lines 117-147), parameterised by the
external `focal_loss` and by torchvision's bilinear `resize` (called with the
label spatial size). Computes the focal loss of the main output, logs it,
takes argmax predictions of the resized logits, builds hard labels from the
soft ones and feeds each of the four validation metrics. -/
def LitModel.validation_step {P V : Type}
    (focal_loss : Tensor4 → Tensor4 → String → ℚ)
    (resize : Tensor4 → ℕ × ℕ → Tensor4)
    (self : LitModel Tensor4 P V) (features : Tensor4) (labels : Labels Tensor4) :
    ValStepOut P V :=
  let out := self.model.run features
  let loss := focal_loss out.out labels.segmentation self.focal_loss_scale
  let labels_size := (labels.segmentation.height, labels.segmentation.width)
  let logits := resize out.out labels_size
  let preds := logits.pixels.map argmaxIdx
  let labels_hard := labels_hard_list labels.segmentation
  { self :=
      { self with
        val_accuracy := self.val_accuracy.call preds labels_hard
        val_iou_0 := self.val_iou_0.call preds labels_hard
        val_iou_1 := self.val_iou_1.call preds labels_hard
        val_iou_2 := self.val_iou_2.call preds labels_hard }
    scalar_logs := [("val/loss", loss)]
    metric_logs := ["val/accuracy", "val/iou/obstacle", "val/iou/water", "val/iou/sky"]
    loss := loss
    preds := preds }

/-- Python substring membership `sub in name`. -/
def strContains (name sub : String) : Bool := decide (sub.toList <:+: name.toList)

/-- The parameter-grouping loop of `configure_optimizers` (train.py lines
150-160): encoder parameters (name starts with `backbone`), decoder weight
parameters (`weight` in the name), decoder bias parameters (the rest), each
group in the source order. -/
def split_parameters {P : Type} : List (String × P) → List P × List P × List P
  | [] => ([], [], [])
  | (name, parameter) :: rest =>
    let groups := split_parameters rest
    if name.startsWith "backbone" then (parameter :: groups.1, groups.2.1, groups.2.2)
    else if strContains name "weight" then (groups.1, parameter :: groups.2.1, groups.2.2)
    else (groups.1, groups.2.1, parameter :: groups.2.2)

/-- One RMSprop parameter group: its parameters and its learning rate. -/
structure OptimGroup (P : Type) where
  params : List P
  lr : ℚ
deriving Repr, DecidableEq

/-- The RMSprop optimizer as configured (train.py lines 162-166). -/
structure Optimizer (P : Type) where
  param_groups : List (OptimGroup P)
  momentum : ℚ
  alpha : ℚ
  weight_decay : ℚ
deriving Repr, DecidableEq

/-- The optimizer built by `LitModel.configure_optimizers` (train.py lines
149-166): the three parameter groups at learning rates `lr`, `lr * 10` and
`lr * 20`. -/
def LitModel.configure_optimizers {T P V : Type} (self : LitModel T P V) :
    Optimizer P :=
  let groups := split_parameters self.model.named_parameters
  { param_groups :=
      [ { params := groups.1, lr := self.learning_rate },
        { params := groups.2.1, lr := self.learning_rate * 10 },
        { params := groups.2.2, lr := self.learning_rate * 20 } ]
    momentum := self.momentum
    alpha := 9/10
    weight_decay := self.weight_decay }

open Classical in
/-- Python float power `x ** y` as a real: the real power where it is
defined over the reals (nonnegative base, or an integer exponent), `none`
otherwise (there Python leaves the reals and returns a complex number). -/
noncomputable def pyPow (x y : ℝ) : Option ℝ :=
  if 0 ≤ x then some (x ^ y)
  else if ∃ n : ℤ, (n : ℝ) = y then some (x ^ y)
  else none

/-- The per-epoch learning-rate decay factor of `configure_optimizers`
(train.py line 169): `(1 - epoch/epochs) ** lr_decay_pow` as a Python float
power. -/
noncomputable def lr_fn (epochs : ℕ) (lr_decay_pow : ℝ) (epoch : ℕ) : Option ℝ :=
  pyPow (1 - (epoch : ℝ) / (epochs : ℝ)) lr_decay_pow

/-- A Python dict keyed by strings, as a partial map. -/
def PyDict (V : Type) : Type := String → Option V

/-- Python dict item assignment `d[k] = v`. -/
def PyDict.set {V : Type} (d : PyDict V) (k : String) (v : V) : PyDict V :=
  fun q => if q = k then some v else d q

/-- Source `LitModel.on_save_checkpoint` (train.py lines 176-178): writes the model
weights into the checkpoint dict under `'model'`; the `LitModel` itself is
returned unchanged. -/
def LitModel.on_save_checkpoint {T P V : Type} (self : LitModel T P V)
    (checkpoint : PyDict V) : LitModel T P V × PyDict V :=
  (self, checkpoint.set "model" self.model.state_dict)

/-- A small concrete network over rational "tensors", used to exercise the
definitions on closed inputs. -/
def demoModel : NNModel ℚ ℚ ℚ :=
  { run := fun x => { out := x + 1, aux := x * 2 }
    named_parameters :=
      [("backbone.conv.weight", 1), ("backbone.conv.bias", 2),
       ("decoder.conv.weight", 3), ("decoder.conv.bias", 4)]
    state_dict := 7 }

/-- Concrete arguments: the source defaults, with the 'wasr' method. -/
def demoArgs : Args :=
  { learning_rate := 1/1000000
    momentum := 9/10
    epochs := 50
    lr_decay_pow := 9/10
    weight_decay := 1/1000000
    focal_loss_scale := "labels"
    separation_loss := "wasr"
    separation_loss_lambda := none
    separation_loss_clipping := none
    separation_loss_sky := false }

/-- A concrete LitModel with the 'wasr' separation loss. -/
def demoSelf : LitModel ℚ ℚ ℚ := LitModel.init demoModel 3 (parse_args demoArgs).1

/-- A concrete LitModel with the separation loss turned off. -/
def demoSelfOff : LitModel ℚ ℚ ℚ :=
  LitModel.init demoModel 3 (parse_args { demoArgs with separation_loss := "none" }).1

/-- A concrete stand-in for the external focal loss. -/
def demoFocal : ℚ → ℚ → String → ℚ := fun a b _ => a + b

/-- A concrete stand-in for the external water-obstacle separation loss. -/
def demoWosl : ℚ → ℚ → Option ℚ → Bool → ℚ := fun a b _ _ => a * b

/-- A concrete network over image tensors (identity features). -/
def demoValModel : NNModel Tensor4 ℚ ℚ :=
  { run := fun x => { out := x, aux := x }
    named_parameters := []
    state_dict := 0 }

/-- A concrete LitModel on image tensors. -/
def demoValSelf : LitModel Tensor4 ℚ ℚ :=
  LitModel.init demoValModel 3 (parse_args demoArgs).1

/-- A concrete soft segmentation tensor: one confident pixel and one whose
channels sum below 0.9. -/
def demoSeg : Tensor4 :=
  { height := 2, width := 1, pixels := [[0, 1, 0], [1/4, 1/4, 1/4]] }

/-- A concrete stand-in for the external bilinear resize. -/
def demoResize : Tensor4 → ℕ × ℕ → Tensor4 :=
  fun t s => { height := s.1, width := s.2, pixels := t.pixels }

/-- A concrete stand-in for the focal loss on image tensors. -/
def demoValFocal : Tensor4 → Tensor4 → String → ℚ :=
  fun a b _ => a.pixels.length + b.pixels.length

/-- A string is a key of `SL_LAMBDA_DEFAULTS` exactly when it is `'wasr'`
or `'none'`. -/
theorem lookup_SL_isSome (s : String) :
    (SL_LAMBDA_DEFAULTS.lookup s).isSome = true ↔ (s = "wasr" ∨ s = "none") := by
  by_cases h1 : s = "wasr"
  · simp [SL_LAMBDA_DEFAULTS, List.lookup, h1]
  · by_cases h2 : s = "none"
    · simp [SL_LAMBDA_DEFAULTS, List.lookup, h2]
    · have hb1 : (s == "wasr") = false := beq_eq_false_iff_ne.mpr h1
      have hb2 : (s == "none") = false := beq_eq_false_iff_ne.mpr h2
      simp [SL_LAMBDA_DEFAULTS, List.lookup, hb1, hb2, h1, h2]

/-- parse_args when the method is a known key and the lambda is given. -/
theorem parse_args_eq_of_some (a : Args)
    (hs : (SL_LAMBDA_DEFAULTS.lookup a.separation_loss).isSome = true)
    (v : ℚ) (hl : a.separation_loss_lambda = some v) :
    parse_args a = (a, none) := by
  unfold parse_args
  rw [if_pos hs, hl]

/-- parse_args when the method is a known key and the lambda is missing. -/
theorem parse_args_eq_of_none (a : Args)
    (hs : (SL_LAMBDA_DEFAULTS.lookup a.separation_loss).isSome = true)
    (hl : a.separation_loss_lambda = none) :
    parse_args a =
      ({ a with
         separation_loss_lambda := SL_LAMBDA_DEFAULTS.lookup a.separation_loss },
       none) := by
  unfold parse_args
  rw [if_pos hs, hl]

/-- parse_args when the method is not a known key. -/
theorem parse_args_eq_of_fail (a : Args)
    (hs : ¬ (SL_LAMBDA_DEFAULTS.lookup a.separation_loss).isSome = true) :
    parse_args a = (a, some "AssertionError") := by
  unfold parse_args
  rw [if_neg hs]

/-- C6: for every input x, forward(x) returns exactly the 'out' entry of the
wrapped model's output dictionary: forward(x) = model(x)['out']. -/
theorem C6_forward_out {T P V : Type} (self : LitModel T P V) (x : T) :
    self.forward x = (self.model.run x).out := rfl

/-- C7: on_save_checkpoint sets the checkpoint's 'model' entry to the model's
state dict, leaves every other checkpoint entry unchanged, and does not
modify the LitModel itself. -/
theorem C7_on_save_checkpoint_frame {T P V : Type} (self : LitModel T P V)
    (checkpoint : PyDict V) :
    (self.on_save_checkpoint checkpoint).2 "model" = some self.model.state_dict ∧
    (∀ k, k ≠ "model" → (self.on_save_checkpoint checkpoint).2 k = checkpoint k) ∧
    (self.on_save_checkpoint checkpoint).1 = self := by
  refine ⟨by simp [LitModel.on_save_checkpoint, PyDict.set], fun k hk => ?_, rfl⟩
  simp [LitModel.on_save_checkpoint, PyDict.set, hk]

/-- C8: parse_args raises an assertion error exactly when the separation-loss
method is neither 'wasr' nor 'none', and on failure the args are unchanged
(the assert precedes every mutation). -/
theorem C8_parse_args_assert (a : Args) :
    ((parse_args a).2.isSome = true ↔
      (a.separation_loss ≠ "wasr" ∧ a.separation_loss ≠ "none")) ∧
    ((parse_args a).2.isSome = true → (parse_args a).1 = a) := by
  by_cases h : (SL_LAMBDA_DEFAULTS.lookup a.separation_loss).isSome = true
  · have hk := (lookup_SL_isSome a.separation_loss).mp h
    have h2 : (parse_args a).2 = none := by
      cases hl : a.separation_loss_lambda with
      | none => rw [parse_args_eq_of_none a h hl]
      | some v => rw [parse_args_eq_of_some a h v hl]
    rw [h2]
    constructor
    · simp only [Option.isSome_none, Bool.false_eq_true, false_iff, not_and_or,
        not_not]
      tauto
    · simp
  · have hk := fun hw => h ((lookup_SL_isSome a.separation_loss).mpr hw)
    rw [parse_args_eq_of_fail a h]
    refine ⟨?_, fun _ => rfl⟩
    simp only [Option.isSome_some, true_iff]
    constructor
    · intro hw
      exact hk (Or.inl hw)
    · intro hn
      exact hk (Or.inr hn)

/-- C9: on success parse_args modifies at most the separation-loss lambda
(filling in 0.01 for 'wasr' and 1.0 for 'none' when it is None, keeping it
otherwise), leaves every other field unchanged, and a second application
changes nothing (idempotence). -/
theorem C9_parse_args_success (a : Args) (h : (parse_args a).2 = none) :
    ((parse_args a).1.separation_loss_lambda =
      match a.separation_loss_lambda with
      | some v => some v
      | none => if a.separation_loss = "wasr" then some (1/100) else some 1) ∧
    (parse_args a).1.learning_rate = a.learning_rate ∧
    (parse_args a).1.momentum = a.momentum ∧
    (parse_args a).1.epochs = a.epochs ∧
    (parse_args a).1.lr_decay_pow = a.lr_decay_pow ∧
    (parse_args a).1.weight_decay = a.weight_decay ∧
    (parse_args a).1.focal_loss_scale = a.focal_loss_scale ∧
    (parse_args a).1.separation_loss = a.separation_loss ∧
    (parse_args a).1.separation_loss_clipping = a.separation_loss_clipping ∧
    (parse_args a).1.separation_loss_sky = a.separation_loss_sky ∧
    parse_args ((parse_args a).1) = ((parse_args a).1, none) := by
  by_cases hs : (SL_LAMBDA_DEFAULTS.lookup a.separation_loss).isSome = true
  · have hk := (lookup_SL_isSome a.separation_loss).mp hs
    cases hl : a.separation_loss_lambda with
    | some v =>
      have he := parse_args_eq_of_some a hs v hl
      rw [he]
      exact ⟨by rw [hl], rfl, rfl, rfl, rfl, rfl, rfl, rfl, rfl, rfl,
        parse_args_eq_of_some a hs v hl⟩
    | none =>
      have he := parse_args_eq_of_none a hs hl
      obtain ⟨d, hd⟩ := Option.isSome_iff_exists.mp hs
      rw [he]
      refine ⟨?_, rfl, rfl, rfl, rfl, rfl, rfl, rfl, rfl, rfl, ?_⟩
      · show SL_LAMBDA_DEFAULTS.lookup a.separation_loss =
          if a.separation_loss = "wasr" then some (1/100) else some 1
        rcases hk with hw | hn
        · rw [hw]
          simp [SL_LAMBDA_DEFAULTS, List.lookup]
        · rw [hn]
          simp [SL_LAMBDA_DEFAULTS, List.lookup]
      · exact parse_args_eq_of_some _ hs d hd
  · exfalso
    rw [parse_args_eq_of_fail a hs] at h
    exact Option.some_ne_none _ h

/-- Witness for C9: the source defaults ('wasr' method, missing lambda). -/
theorem C9_parse_args_success_witness :
    ((parse_args demoArgs).1.separation_loss_lambda =
      match demoArgs.separation_loss_lambda with
      | some v => some v
      | none =>
        if demoArgs.separation_loss = "wasr" then some (1/100) else some 1) ∧
    (parse_args demoArgs).1.learning_rate = demoArgs.learning_rate ∧
    (parse_args demoArgs).1.momentum = demoArgs.momentum ∧
    (parse_args demoArgs).1.epochs = demoArgs.epochs ∧
    (parse_args demoArgs).1.lr_decay_pow = demoArgs.lr_decay_pow ∧
    (parse_args demoArgs).1.weight_decay = demoArgs.weight_decay ∧
    (parse_args demoArgs).1.focal_loss_scale = demoArgs.focal_loss_scale ∧
    (parse_args demoArgs).1.separation_loss = demoArgs.separation_loss ∧
    (parse_args demoArgs).1.separation_loss_clipping =
      demoArgs.separation_loss_clipping ∧
    (parse_args demoArgs).1.separation_loss_sky = demoArgs.separation_loss_sky ∧
    parse_args ((parse_args demoArgs).1) = ((parse_args demoArgs).1, none) :=
  C9_parse_args_success demoArgs rfl

/-- C1: training_step returns the composite loss: the focal loss of the main
output plus separation_loss_lambda times the water-obstacle separation loss
of the auxiliary output (with the configured clipping and sky flag) when the
separation-loss method is 'wasr'; for method 'none' the separation term is 0
and the returned loss is the focal loss alone. -/
theorem C1_training_step_loss {T P V : Type}
    (focal_loss : T → T → String → ℚ)
    (water_obstacle_separation_loss : T → T → Option ℚ → Bool → ℚ)
    (self : LitModel T P V) (features : T) (labels : Labels T) (lam : ℚ)
    (hlam : self.separation_loss_lambda = some lam) :
    (self.separation_loss = "wasr" →
      (self.training_step focal_loss water_obstacle_separation_loss features
          labels).map Prod.fst =
        some (focal_loss (self.model.run features).out labels.segmentation
            self.focal_loss_scale +
          lam * water_obstacle_separation_loss (self.model.run features).aux
            labels.segmentation self.separation_loss_clipping
            self.separation_loss_sky)) ∧
    (self.separation_loss = "none" →
      (self.training_step focal_loss water_obstacle_separation_loss features
          labels).map Prod.fst =
        some (focal_loss (self.model.run features).out labels.segmentation
            self.focal_loss_scale)) := by
  constructor
  · intro hw
    simp [LitModel.training_step, hlam, hw]
  · intro hn
    have hne : ¬ self.separation_loss = "wasr" := by
      rw [hn]
      decide
    simp [LitModel.training_step, hlam, hn, hne]

/-- Witness for C1: the loss composition evaluated on the concrete demo
model, once with the 'wasr' method and once with 'none'. -/
theorem C1_training_step_loss_witness :
    ((demoSelf.training_step demoFocal demoWosl 3 { segmentation := 5 }).map
        Prod.fst =
      some (demoFocal (demoModel.run 3).out 5 demoSelf.focal_loss_scale +
        (1/100) * demoWosl (demoModel.run 3).aux 5
          demoSelf.separation_loss_clipping demoSelf.separation_loss_sky)) ∧
    ((demoSelfOff.training_step demoFocal demoWosl 3 { segmentation := 5 }).map
        Prod.fst =
      some (demoFocal (demoModel.run 3).out 5 demoSelfOff.focal_loss_scale)) :=
  ⟨(C1_training_step_loss demoFocal demoWosl demoSelf 3 { segmentation := 5 }
      (1/100) rfl).1 rfl,
   (C1_training_step_loss demoFocal demoWosl demoSelfOff 3 { segmentation := 5 }
      1 rfl).2 rfl⟩

/-- The grouping loop of configure_optimizers keeps exactly: the backbone
parameters, then the non-backbone weight parameters, then the remaining
parameters, each as a filter of the named-parameter list. -/
theorem split_parameters_eq {P : Type} (ps : List (String × P)) :
    split_parameters ps =
      ((ps.filter (fun np => np.1.startsWith "backbone")).map Prod.snd,
       (ps.filter
          (fun np => !np.1.startsWith "backbone" && strContains np.1 "weight")).map
         Prod.snd,
       (ps.filter
          (fun np => !np.1.startsWith "backbone" && !strContains np.1 "weight")).map
         Prod.snd) := by
  induction ps with
  | nil => rfl
  | cons hd tl ih =>
    obtain ⟨name, p⟩ := hd
    by_cases h1 : name.startsWith "backbone" = true
    · simp [split_parameters, ih, h1]
    · by_cases h2 : strContains name "weight" = true
      · simp [split_parameters, ih, h1, h2]
      · simp [split_parameters, ih, h1, h2]

/-- The three group sizes add up to the number of named parameters. -/
theorem split_parameters_length {P : Type} (ps : List (String × P)) :
    (split_parameters ps).1.length + (split_parameters ps).2.1.length +
      (split_parameters ps).2.2.length = ps.length := by
  induction ps with
  | nil => rfl
  | cons hd tl ih =>
    obtain ⟨name, p⟩ := hd
    by_cases h1 : name.startsWith "backbone" = true
    · simp only [split_parameters, h1, if_true, List.length_cons]
      omega
    · by_cases h2 : strContains name "weight" = true
      · simp only [split_parameters, h1, h2, Bool.false_eq_true, if_false,
          if_true, List.length_cons]
        omega
      · simp only [split_parameters, h1, h2, Bool.false_eq_true, if_false,
          List.length_cons]
        omega

/-- C2: configure_optimizers builds exactly three parameter groups: names
starting with 'backbone' at the base learning rate, the remaining names
containing 'weight' at 10 times the base rate, and all other parameters at
20 times the base rate; the group sizes add up to the number of named
parameters, so every parameter is in exactly one group (the three filter
predicates are pairwise disjoint and exhaustive by construction). -/
theorem C2_configure_optimizers_groups {T P V : Type} (self : LitModel T P V) :
    (self.configure_optimizers).param_groups =
      [ { params := (self.model.named_parameters.filter
            (fun np => np.1.startsWith "backbone")).map Prod.snd,
          lr := self.learning_rate },
        { params := (self.model.named_parameters.filter
            (fun np => !np.1.startsWith "backbone" &&
              strContains np.1 "weight")).map Prod.snd,
          lr := self.learning_rate * 10 },
        { params := (self.model.named_parameters.filter
            (fun np => !np.1.startsWith "backbone" &&
              !strContains np.1 "weight")).map Prod.snd,
          lr := self.learning_rate * 20 } ] ∧
    ((self.configure_optimizers).param_groups.map
        (fun g => g.params.length)).sum = self.model.named_parameters.length := by
  have hsplit := split_parameters_eq self.model.named_parameters
  have hlen := split_parameters_length self.model.named_parameters
  constructor
  · simp only [LitModel.configure_optimizers, hsplit]
  · simp only [LitModel.configure_optimizers, List.map_cons, List.map_nil,
      List.sum_cons, List.sum_nil]
    omega

/-- For epoch ≤ epochs the decay base is nonnegative, so lr_fn is the real
power of the base. -/
theorem lr_fn_eq_rpow (epochs : ℕ) (p : ℝ) (epoch : ℕ) (he : 1 ≤ epochs)
    (hle : epoch ≤ epochs) :
    lr_fn epochs p epoch = some ((1 - (epoch : ℝ) / (epochs : ℝ)) ^ p) := by
  have hE : (0 : ℝ) < (epochs : ℝ) := by
    exact_mod_cast Nat.lt_of_lt_of_le Nat.zero_lt_one he
  have hbase : 0 ≤ 1 - (epoch : ℝ) / (epochs : ℝ) := by
    have hd : (epoch : ℝ) / (epochs : ℝ) ≤ 1 := by
      rw [div_le_one hE]
      exact_mod_cast hle
    linarith
  unfold lr_fn pyPow
  rw [if_pos hbase]

/-- C3: the decay factor lr_fn(e) = (1 - e/epochs) ** lr_decay_pow is defined
and non-increasing on the integer epochs 0..epochs, equals 1 at epoch 0, and
for a positive decay power equals 0 at the final epoch. -/
theorem C3_lr_fn_monotone (epochs : ℕ) (p : ℝ) (he : 1 ≤ epochs) (hp : 0 ≤ p) :
    (∀ e1 e2, e1 ≤ e2 → e2 ≤ epochs →
      ∃ v1 v2, lr_fn epochs p e1 = some v1 ∧ lr_fn epochs p e2 = some v2 ∧
        v2 ≤ v1) ∧
    lr_fn epochs p 0 = some 1 ∧
    (0 < p → lr_fn epochs p epochs = some 0) := by
  have hE : (0 : ℝ) < (epochs : ℝ) := by
    exact_mod_cast Nat.lt_of_lt_of_le Nat.zero_lt_one he
  refine ⟨fun e1 e2 h12 h2 => ?_, ?_, fun hp0 => ?_⟩
  · have h1 : e1 ≤ epochs := le_trans h12 h2
    refine ⟨_, _, lr_fn_eq_rpow epochs p e1 he h1,
      lr_fn_eq_rpow epochs p e2 he h2, ?_⟩
    apply Real.rpow_le_rpow
    · have hd : (e2 : ℝ) / (epochs : ℝ) ≤ 1 := by
        rw [div_le_one hE]
        exact_mod_cast h2
      linarith
    · have hd : (e1 : ℝ) / (epochs : ℝ) ≤ (e2 : ℝ) / (epochs : ℝ) := by
        apply div_le_div_of_nonneg_right ?_ hE.le
        exact_mod_cast h12
      linarith
    · exact hp
  · rw [lr_fn_eq_rpow epochs p 0 he (Nat.zero_le _)]
    norm_num [Real.one_rpow]
  · rw [lr_fn_eq_rpow epochs p epochs he le_rfl]
    simp [div_self (ne_of_gt hE), Real.zero_rpow (ne_of_gt hp0)]

/-- Witness for C3 at the source defaults: 50 epochs, decay power 0.9. -/
theorem C3_lr_fn_monotone_witness :
    (∃ v1 v2, lr_fn 50 ((9 : ℝ)/10) 0 = some v1 ∧
      lr_fn 50 ((9 : ℝ)/10) 50 = some v2 ∧ v2 ≤ v1) ∧
    lr_fn 50 ((9 : ℝ)/10) 0 = some 1 ∧
    lr_fn 50 ((9 : ℝ)/10) 50 = some 0 := by
  have h := C3_lr_fn_monotone 50 ((9 : ℝ)/10) (by norm_num) (by norm_num)
  exact ⟨h.1 0 50 (by norm_num) (by norm_num), h.2.1, h.2.2 (by norm_num)⟩

/-- C10: under the precondition epoch ≤ epochs (and a nonnegative decay
power) lr_fn is defined with a value in [0, 1]; past the final epoch the
base is negative, and with a non-integer decay power the float power leaves
the reals, so lr_fn is undefined there. -/
theorem C10_lr_fn_safety (epochs : ℕ) (p : ℝ) (epoch : ℕ) (he : 1 ≤ epochs) :
    (epoch ≤ epochs → 0 ≤ p →
      ∃ v, lr_fn epochs p epoch = some v ∧ 0 ≤ v ∧ v ≤ 1) ∧
    (epochs < epoch → (¬ ∃ n : ℤ, (n : ℝ) = p) →
      lr_fn epochs p epoch = none) := by
  have hE : (0 : ℝ) < (epochs : ℝ) := by
    exact_mod_cast Nat.lt_of_lt_of_le Nat.zero_lt_one he
  constructor
  · intro hle hp
    have hd : (epoch : ℝ) / (epochs : ℝ) ≤ 1 := by
      rw [div_le_one hE]
      exact_mod_cast hle
    have hd0 : 0 ≤ (epoch : ℝ) / (epochs : ℝ) :=
      div_nonneg (Nat.cast_nonneg epoch) (le_of_lt hE)
    refine ⟨_, lr_fn_eq_rpow epochs p epoch he hle, ?_, ?_⟩
    · exact Real.rpow_nonneg (by linarith) p
    · exact Real.rpow_le_one (by linarith) (by linarith) hp
  · intro hgt hni
    have hneg : 1 - (epoch : ℝ) / (epochs : ℝ) < 0 := by
      have hd : 1 < (epoch : ℝ) / (epochs : ℝ) := by
        rw [lt_div_iff₀ hE, one_mul]
        exact_mod_cast hgt
      linarith
    unfold lr_fn pyPow
    rw [if_neg (not_le.mpr hneg), if_neg hni]

/-- Witness for C10: at 50 epochs and decay power 0.9, epoch 10 gives a value
in [0, 1] and epoch 51 is undefined over the reals. -/
theorem C10_lr_fn_safety_witness :
    (∃ v, lr_fn 50 ((9 : ℝ)/10) 10 = some v ∧ 0 ≤ v ∧ v ≤ 1) ∧
    lr_fn 50 ((9 : ℝ)/10) 51 = none := by
  have hni : ¬ ∃ n : ℤ, (n : ℝ) = (9 : ℝ)/10 := by
    rintro ⟨n, hn⟩
    have h10 : ((10 * n : ℤ) : ℝ) = 9 := by
      push_cast
      linarith
    have h10i : (10 * n : ℤ) = 9 := by exact_mod_cast h10
    omega
  exact ⟨(C10_lr_fn_safety 50 ((9 : ℝ)/10) 10 (by norm_num)).1 (by norm_num)
      (by norm_num),
    (C10_lr_fn_safety 50 ((9 : ℝ)/10) 51 (by norm_num)).2 (by norm_num) hni⟩

/-- The channel argmax is bounded by any bound on the channel count (and by
any positive bound for the empty list). -/
theorem argmaxIdx_lt_of_le {l : List ℚ} {n : ℕ} (hn : l.length ≤ n)
    (h0 : 0 < n) : argmaxIdx l < n := by
  cases l with
  | nil => simpa [argmaxIdx] using h0
  | cons x xs =>
    unfold argmaxIdx
    cases hget : xs.get? (argmaxIdx xs) with
    | none => simpa using h0
    | some y =>
      obtain ⟨hj, -⟩ := List.get?_eq_some.mp hget
      show (if x < y then argmaxIdx xs + 1 else 0) < n
      by_cases hxy : x < y
      · rw [if_pos hxy]
        have hlen : xs.length + 1 ≤ n := by simpa using hn
        omega
      · rw [if_neg hxy]
        exact h0

/-- The hard labels as a single per-pixel map. -/
theorem labels_hard_list_eq_map (seg : Tensor4) :
    labels_hard_list seg = seg.pixels.map (fun c =>
      argmaxIdx c * (!(decide (c.sum < 9/10))).toNat +
        4 * (decide (c.sum < 9/10)).toNat) := by
  unfold labels_hard_list
  rw [List.zipWith_map, List.zipWith_same]

/-- The per-pixel hard-label arithmetic collapses to an if-then-else on the
ignore condition. -/
theorem labels_hard_pixel (c : List ℚ) :
    argmaxIdx c * (!(decide (c.sum < 9/10))).toNat +
      4 * (decide (c.sum < 9/10)).toNat =
      if c.sum < 9/10 then 4 else argmaxIdx c := by
  by_cases hc : c.sum < 9/10
  · simp [hc]
  · simp [hc]

/-- getD through a map, below the length. -/
theorem getD_map_of_lt {α β : Type} (f : α → β) (l : List α) (i : ℕ)
    (hi : i < l.length) (d : α) (d2 : β) :
    (l.map f).getD i d2 = f (l.getD i d) := by
  rw [List.getD_eq_get?, List.getD_eq_get?, List.get?_map, List.get?_eq_get hi]
  rfl

/-- C4: in validation_step the hard label of a pixel equals the ignore class
4 exactly when the pixel's soft-label channel sum is below 0.9, and equals
the channel argmax of the soft labels otherwise (stated for label tensors
with at most 4 channels — here they have 3); the predictions compared
against these hard labels are the channel argmax of the logits resized to
the label spatial size. -/
theorem C4_validation_hard_labels {P V : Type}
    (focal_loss : Tensor4 → Tensor4 → String → ℚ)
    (resize : Tensor4 → ℕ × ℕ → Tensor4)
    (self : LitModel Tensor4 P V) (features : Tensor4) (labels : Labels Tensor4)
    (hch : ∀ c ∈ labels.segmentation.pixels, c.length ≤ 4) :
    (∀ i, i < labels.segmentation.pixels.length →
      (((labels_hard_list labels.segmentation).getD i 0 = 4 ↔
        (labels.segmentation.pixels.getD i []).sum < 9/10) ∧
      (¬ (labels.segmentation.pixels.getD i []).sum < 9/10 →
        (labels_hard_list labels.segmentation).getD i 0 =
          argmaxIdx (labels.segmentation.pixels.getD i [])))) ∧
    (self.validation_step focal_loss resize features labels).preds =
      (resize (self.model.run features).out
        (labels.segmentation.height, labels.segmentation.width)).pixels.map
        argmaxIdx := by
  constructor
  · intro i hi
    have hmem : labels.segmentation.pixels.getD i [] ∈
        labels.segmentation.pixels := by
      rw [List.getD_eq_get?, List.get?_eq_get hi]
      exact List.get_mem _ _ _
    have ha4 : argmaxIdx (labels.segmentation.pixels.getD i []) < 4 :=
      argmaxIdx_lt_of_le (hch _ hmem) (by norm_num)
    have hv : (labels_hard_list labels.segmentation).getD i 0 =
        if (labels.segmentation.pixels.getD i []).sum < 9/10 then 4
        else argmaxIdx (labels.segmentation.pixels.getD i []) := by
      rw [labels_hard_list_eq_map, getD_map_of_lt _ _ i hi []]
      exact labels_hard_pixel _
    by_cases hc : (labels.segmentation.pixels.getD i []).sum < 9/10
    · rw [hv, if_pos hc]
      exact ⟨⟨fun _ => hc, fun _ => rfl⟩, fun hn => absurd hc hn⟩
    · rw [hv, if_neg hc]
      exact ⟨⟨fun h4 => absurd h4 (Nat.ne_of_lt ha4), fun hcc => absurd hcc hc⟩,
        fun _ => rfl⟩
  · rfl

/-- Witness for C4 on a concrete two-pixel soft segmentation tensor: one
confident pixel and one below the 0.9 channel-sum threshold. -/
theorem C4_validation_hard_labels_witness :
    (∀ i, i < demoSeg.pixels.length →
      (((labels_hard_list demoSeg).getD i 0 = 4 ↔
        (demoSeg.pixels.getD i []).sum < 9/10) ∧
      (¬ (demoSeg.pixels.getD i []).sum < 9/10 →
        (labels_hard_list demoSeg).getD i 0 =
          argmaxIdx (demoSeg.pixels.getD i [])))) ∧
    (demoValSelf.validation_step demoValFocal demoResize demoSeg
        { segmentation := demoSeg }).preds =
      (demoResize (demoValModel.run demoSeg).out
        (demoSeg.height, demoSeg.width)).pixels.map argmaxIdx :=
  C4_validation_hard_labels demoValFocal demoResize demoValSelf demoSeg
    { segmentation := demoSeg } (by decide)

/-- C5: validation_step feeds each of the four validation metrics exactly
once with the pair (preds, labels_hard); the logged 'val/loss' is the focal
loss of the main output alone, with no separation term; and the per-class
IoU metrics are created for classes 0, 1 and 2 (pixel accuracy for none). -/
theorem C5_validation_metrics {P V : Type}
    (focal_loss : Tensor4 → Tensor4 → String → ℚ)
    (resize : Tensor4 → ℕ × ℕ → Tensor4)
    (self : LitModel Tensor4 P V) (features : Tensor4) (labels : Labels Tensor4)
    (m : NNModel Tensor4 P V) (nc : ℕ) (a : Args) :
    ((self.validation_step focal_loss resize features labels).self.val_accuracy.updates =
      self.val_accuracy.updates ++
        [((resize (self.model.run features).out
            (labels.segmentation.height, labels.segmentation.width)).pixels.map
              argmaxIdx,
          labels_hard_list labels.segmentation)]) ∧
    ((self.validation_step focal_loss resize features labels).self.val_iou_0.updates =
      self.val_iou_0.updates ++
        [((resize (self.model.run features).out
            (labels.segmentation.height, labels.segmentation.width)).pixels.map
              argmaxIdx,
          labels_hard_list labels.segmentation)]) ∧
    ((self.validation_step focal_loss resize features labels).self.val_iou_1.updates =
      self.val_iou_1.updates ++
        [((resize (self.model.run features).out
            (labels.segmentation.height, labels.segmentation.width)).pixels.map
              argmaxIdx,
          labels_hard_list labels.segmentation)]) ∧
    ((self.validation_step focal_loss resize features labels).self.val_iou_2.updates =
      self.val_iou_2.updates ++
        [((resize (self.model.run features).out
            (labels.segmentation.height, labels.segmentation.width)).pixels.map
              argmaxIdx,
          labels_hard_list labels.segmentation)]) ∧
    (self.validation_step focal_loss resize features labels).scalar_logs =
      [("val/loss", focal_loss (self.model.run features).out labels.segmentation
        self.focal_loss_scale)] ∧
    (LitModel.init m nc a).val_accuracy.cls = none ∧
    (LitModel.init m nc a).val_iou_0.cls = some 0 ∧
    (LitModel.init m nc a).val_iou_1.cls = some 1 ∧
    (LitModel.init m nc a).val_iou_2.cls = some 2 :=
  ⟨rfl, rfl, rfl, rfl, rfl, rfl, rfl, rfl, rfl⟩

end WasrT
